import Mathlib

/-!
Verification of the multi-backend upscaling orchestrator.

This file gives a shallow embedding, in Lean 4, of the backend-orchestration
modules of the repository (app/upscaler_simple.py, app/upscaler.py and
app/upscaler_hybrid.py) and proves properties of the embedded definitions.

Modelling conventions:
- Python ints are Nat or Int; Python floats are idealized as rationals, with
  float literals such as 0.000012 read as the exact decimals they denote.
  Python round(x, 1) is modelled as round-half-to-even at one decimal digit.
- Python int(x) on a nonnegative float is Int.floor followed by Int.toNat.
- Code that raises an exception is modelled with Except String.
- External collaborators (the realesrgan library, the ncnn binary, the PIL
  image library, the filesystem) are outside the repository; where a claim
  depends on their behaviour they are either taken as explicit parameters
  (child-process exit code, output-file existence) or modelled from the
  words of the specification, as flagged in the doc comment of the
  corresponding definition.
-/

namespace UpscalerOrchestrator

/-- Backend identifiers used by upscaler_simple.RealESRGANUpscaler.  The
source represents them as the strings "realesrgan", "ncnn", "pil" and
"none". -/
inductive Backend
  | realesrgan
  | ncnn
  | pil
  | none
deriving DecidableEq

/-- Availability registry built by upscaler_simple._init_backends: one
availability flag per probed backend, in probe order (realesrgan, basicsr,
pil, ncnn).  The basicsr flag is probed but never consulted by the
selector. -/
structure Registry where
  realesrgan_available : Bool
  basicsr_available : Bool
  pil_available : Bool
  ncnn_available : Bool
deriving DecidableEq

/-- Embeds upscaler_simple._select_backend (lines 74-83): fixed priority
realesrgan, then ncnn, then pil, then the sentinel none. -/
def select_backend (r : Registry) : Backend :=
  if r.realesrgan_available then Backend.realesrgan
  else if r.ncnn_available then Backend.ncnn
  else if r.pil_available then Backend.pil
  else Backend.none

/-- The two model variants the in-process inference strategy can build
(upscaler_simple lines 150-156, upscaler_hybrid lines 128-134). -/
inductive Variant
  | x4plus
  | anime6B
deriving DecidableEq

/-- Weight-file name attached to each variant in the source. -/
def variant_weights_name : Variant → String
  | Variant.x4plus => "RealESRGAN_x4plus"
  | Variant.anime6B => "RealESRGAN_x4plus_anime_6B"

/-- Python str.lower at the level of character lists, restricted to the
ASCII case mapping used by the model hints. -/
def lower_chars (l : List Char) : List Char := l.map Char.toLower

/-- Helper for substring search: does the first list start with the
second? -/
def chars_start_with : List Char → List Char → Bool
  | _, [] => true
  | [], _ :: _ => false
  | c :: cs, d :: ds => c = d && chars_start_with cs ds

/-- Helper for substring search: does the first list contain the second as
a contiguous run?  Embeds the Python expression `pat in s`. -/
def chars_contain : List Char → List Char → Bool
  | [], pat => List.isEmpty pat
  | c :: cs, pat => chars_start_with (c :: cs) pat || chars_contain cs pat

/-- Variant selection shared by upscaler_simple lines 151-156 and
upscaler_hybrid lines 129-134: a case-insensitive substring match of
"anime" against the model hint picks the anime-tuned variant, anything
else picks the general-purpose variant. -/
def select_variant (model : String) : Variant :=
  if chars_contain (lower_chars model.toList) ("anime".toList) then
    Variant.anime6B
  else Variant.x4plus

/-- Python str(m) for an optional string, as applied by upscaler_simple
line 151 (`str(model).lower()`); str(None) is the string "None". -/
def py_str : Option String → String
  | Option.none => "None"
  | some s => s

/-- Variant selection as performed per job by
upscaler_simple._upscale_realesrgan (line 151): the hint may be absent. -/
def select_variant_simple (model : Option String) : Variant :=
  select_variant (py_str model)

/-- Result of one call to upscaler_hybrid._upscale_python, projected onto
the model-cache state: the new value of self.python_upscaler (identified
by the variant it was built from) and the variant actually used for the
job. -/
structure HybridPythonResult where
  new_cache : Option Variant
  variant_used : Variant
deriving DecidableEq

/-- Embeds the caching logic of upscaler_hybrid._upscale_python (lines
125-148): if self.python_upscaler is None the variant is selected from
the model hint of the current job and cached; otherwise the cached
upscaler is used as is, whatever the hint of the current job says. -/
def hybrid_upscale_python_model (cache : Option Variant) (model : String) :
    HybridPythonResult :=
  match cache with
  | Option.none => ⟨some (select_variant model), select_variant model⟩
  | some v => ⟨some v, v⟩

/-- Scale plan computed by upscaler.upscale (lines 98-112) and
upscaler_hybrid._upscale_ncnn (lines 219-231): requested scale 2 and 8
run the backend at its native 4 and resize afterwards; any other value is
passed through unchanged with no post-resize. -/
structure ScalePlan where
  actual_scale : Nat
  resize_after : Bool
  final_scale : Nat
deriving DecidableEq

/-- Embeds the scale-handling block of upscaler.upscale lines 98-112. -/
def scale_plan (scale : Nat) : ScalePlan :=
  if scale = 2 then ⟨4, true, 2⟩
  else if scale = 8 then ⟨4, true, 8⟩
  else ⟨scale, false, scale⟩

/-- The resize factor passed to _resize_image in upscaler.upscale line
144: final_scale / actual_scale. -/
def plan_resize_factor (p : ScalePlan) : ℚ :=
  (p.final_scale : ℚ) / (p.actual_scale : ℚ)

/-- Embeds upscaler._resize_image (lines 155-165) at the level of pixel
dimensions: new_width = int(width * factor), new_height likewise, with
int() truncating the nonnegative product. -/
def resize_image_dims (w h : Nat) (f : ℚ) : Nat × Nat :=
  ((⌊(w : ℚ) * f⌋).toNat, (⌊(h : ℚ) * f⌋).toNat)

/-- Modelled from the spec: the accelerator binary is external to the
repository; per the accelerator-process binary contract the child writes
an output whose pixel dimensions are the input dimensions multiplied by
the integer passed with the -s flag. -/
def ncnn_binary_dims (w h s : Nat) : Nat × Nat := (w * s, h * s)

/-- Output dimensions of the successful accelerator-process path of
upscaler.upscale: the child runs at the plan actual scale, then, when the
plan requires it, _resize_image applies factor final_scale/actual_scale. -/
def upscale_ncnn_dims (w h scale : Nat) : Nat × Nat :=
  if (scale_plan scale).resize_after then
    resize_image_dims
      (ncnn_binary_dims w h (scale_plan scale).actual_scale).1
      (ncnn_binary_dims w h (scale_plan scale).actual_scale).2
      (plan_resize_factor (scale_plan scale))
  else ncnn_binary_dims w h (scale_plan scale).actual_scale

/-- Modelled from the spec: the realesrgan library enhance call is
external to the repository; per the specification the in-process
inference strategy runs a native-scale (4x) inference pass on the input
raster.  The outscale argument the source passes (scale/4) is recorded
but, per that contract, the pass itself produces the native 4x raster
which the strategy code then resizes. -/
def enhance_dims (w h : Nat) (outscale : ℚ) : Nat × Nat := (4 * w, 4 * h)

/-- Output dimensions of the in-process inference strategy, embedding the
scale-correction block shared by upscaler_hybrid._upscale_python (lines
163-181) and upscaler_simple._upscale_realesrgan (lines 173-194): after
the enhance pass, scale 2 halves both dimensions with integer floor
division, scale 8 doubles them, scale 4 leaves the raster untouched. -/
def python_inference_dims (w h scale : Nat) : Nat × Nat :=
  if scale ≠ 4 then
    (if scale = 2 then
      ((enhance_dims w h ((scale : ℚ) / 4)).1 / 2,
       (enhance_dims w h ((scale : ℚ) / 4)).2 / 2)
     else if scale = 8 then
      ((enhance_dims w h ((scale : ℚ) / 4)).1 * 2,
       (enhance_dims w h ((scale : ℚ) / 4)).2 * 2)
     else enhance_dims w h ((scale : ℚ) / 4))
  else enhance_dims w h ((scale : ℚ) / 4)

/-- Loop state of the multi-pass software resize in
upscaler_simple._upscale_pil: current image dimensions and the
accumulated scale (Python current_scale, a number starting at 1). -/
structure PilState where
  w : Nat
  h : Nat
  cs : ℚ
deriving DecidableEq

/-- One pass of the software-resize loop (upscaler_simple lines 234-245):
the per-pass step is capped at 2, the image is resized to
int(width * step) by int(height * step), and the accumulated scale is
multiplied by the step.  The sharpening filter applied after each pass
does not change dimensions and is not modelled. -/
def pil_step (scale : Nat) (st : PilState) : PilState :=
  ⟨(⌊(st.w : ℚ) * min 2 ((scale : ℚ) / st.cs)⌋).toNat,
   (⌊(st.h : ℚ) * min 2 ((scale : ℚ) / st.cs)⌋).toNat,
   st.cs * min 2 ((scale : ℚ) / st.cs)⟩

/-- The while loop of upscaler_simple._upscale_pil, with explicit fuel:
while the accumulated scale is below the requested scale, perform one
pass.  For every requested scale s the loop runs at most s passes, so
fuel s + 1 is enough to reach the loop exit. -/
def pil_loop (scale : Nat) : Nat → PilState → PilState
  | 0, st => st
  | fuel + 1, st =>
      if st.cs < (scale : ℚ) then pil_loop scale fuel (pil_step scale st)
      else st

/-- Dimensions of the image written by upscaler_simple._upscale_pil
(lines 213-253): the multi-pass loop followed by the corrective final
resize to the exact target (new_width, new_height) = (w * scale,
h * scale) whenever the loop result differs from it. -/
def upscale_pil_dims (w h scale : Nat) : Nat × Nat :=
  if ((pil_loop scale (scale + 1) ⟨w, h, 1⟩).w,
      (pil_loop scale (scale + 1) ⟨w, h, 1⟩).h) ≠ (w * scale, h * scale)
  then (w * scale, h * scale)
  else ((pil_loop scale (scale + 1) ⟨w, h, 1⟩).w,
        (pil_loop scale (scale + 1) ⟨w, h, 1⟩).h)

/-- Observable actions of one upscale call, used to express that a code
path performs no file access and enters no execution strategy. -/
inductive Effect
  | strategy_call (b : Backend)
  | model_load (v : Variant)
  | file_read (p : String)
  | file_write (p : String)
deriving DecidableEq

/-- Embeds the dispatcher upscaler_simple.upscale (lines 125-142)
together with the entry behaviour of each strategy, as a trace of
observable actions plus a result.  The realesrgan branch selects a fresh
model from the model hint of the job, reads the input and writes the
output (external libraries modelled as succeeding); the ncnn branch is
the stub _upscale_ncnn (lines 207-211) which touches nothing and returns
False; the pil branch reads the input and writes the output; the none
branch raises before doing anything. -/
def upscale_simple (b : Backend) (input_path output_path : String)
    (scale : Nat) (model : Option String) (tile_size : Nat) :
    List Effect × Except String Bool :=
  match b with
  | Backend.realesrgan =>
      ([Effect.strategy_call Backend.realesrgan,
        Effect.model_load (select_variant_simple model),
        Effect.file_read input_path,
        Effect.file_write output_path],
       Except.ok true)
  | Backend.ncnn =>
      ([Effect.strategy_call Backend.ncnn], Except.ok false)
  | Backend.pil =>
      ([Effect.strategy_call Backend.pil,
        Effect.file_read input_path,
        Effect.file_write output_path],
       Except.ok true)
  | Backend.none =>
      ([], Except.error "No upscaling backend available")

/-- Embeds the post-spawn part of upscaler.upscale (lines 127-153) as a
function of the behaviour of the external child process: its exit code,
its captured error stream, and whether the path declared with the -o
flag exists once it has finished.  The pre-spawn checks (binary present,
model files present) are assumed to have passed, since the claim under
verification concerns a job that did spawn the child.  A nonzero exit
code raises; on a zero exit with a post-resize plan, the resize pass
opens the declared intermediate file, which raises when that file is
missing, and otherwise writes output_path; without a post-resize plan
the call returns os.path.exists(output_path), which is exactly the
existence of the declared path. -/
def upscale_ncnn_run (scale : Nat) (returncode : Int)
    (stderr_msg : Option String) (declared_out_exists : Bool) :
    Except String Bool :=
  if returncode ≠ 0 then
    Except.error
      ("Upscaling failed: Real-ESRGAN process failed: " ++
        match stderr_msg with
        | some m => m
        | Option.none => "Unknown error")
  else if (scale_plan scale).resize_after then
    if declared_out_exists then Except.ok true
    else Except.error "Upscaling failed: resize source file missing"
  else Except.ok declared_out_exists

/-- Round half to even to the nearest integer, the tie-breaking rule of
Python round. -/
def round_half_even (x : ℚ) : ℤ :=
  if x - ⌊x⌋ < 1 / 2 then ⌊x⌋
  else if 1 / 2 < x - ⌊x⌋ then ⌊x⌋ + 1
  else if ⌊x⌋ % 2 = 0 then ⌊x⌋ else ⌊x⌋ + 1

/-- Python round(x, 1): round half to even at one decimal digit. -/
def round_py1 (x : ℚ) : ℚ := (round_half_even (x * 10) : ℚ) / 10

/-- Base-memory coefficient table of
upscaler_simple.get_memory_usage_estimate (lines 265-276). -/
def simple_base_memory_mb : Backend → ℚ
  | Backend.realesrgan => 1200
  | Backend.ncnn => 800
  | Backend.pil => 100
  | Backend.none => 50

/-- Per-pixel memory coefficient table of
upscaler_simple.get_memory_usage_estimate (lines 265-276). -/
def simple_memory_per_pixel : Backend → ℚ
  | Backend.realesrgan => 12 / 1000000
  | Backend.ncnn => 8 / 1000000
  | Backend.pil => 4 / 1000000
  | Backend.none => 2 / 1000000

/-- The dictionary returned by
upscaler_simple.get_memory_usage_estimate. -/
structure MemoryEstimateSimple where
  base_memory_mb : ℚ
  processing_memory_mb : ℚ
  total_estimated_mb : ℚ
  backend : Backend
  recommended_tile_size : Nat
  quality : String
deriving DecidableEq

/-- Embeds upscaler_simple.get_memory_usage_estimate (lines 262-289):
pixels = width * height, processing = pixels * memory_per_pixel * scale *
scale, total = base + processing; processing and total are rounded to one
decimal in the returned dictionary; the recommended tile size is 400 for
the realesrgan backend and 512 otherwise; quality is high for the two
model-based backends and medium otherwise. -/
def get_memory_usage_estimate_simple (b : Backend) (w h scale : Nat) :
    MemoryEstimateSimple :=
  ⟨simple_base_memory_mb b,
   round_py1 (((w * h : Nat) : ℚ) * simple_memory_per_pixel b *
     (scale : ℚ) * (scale : ℚ)),
   round_py1 (simple_base_memory_mb b +
     ((w * h : Nat) : ℚ) * simple_memory_per_pixel b *
       (scale : ℚ) * (scale : ℚ)),
   b,
   (if b = Backend.realesrgan then 400 else 512),
   (if b = Backend.realesrgan ∨ b = Backend.ncnn then "high"
    else "medium")⟩

/-- Unrounded processing memory of upscaler.get_memory_usage_estimate:
pixels * 0.000008 * scale * scale. -/
def full_processing_mb (w h scale : Nat) : ℚ :=
  ((w * h : Nat) : ℚ) * (8 / 1000000) * (scale : ℚ) * (scale : ℚ)

/-- Unrounded total memory of upscaler.get_memory_usage_estimate: the
fixed 800 MB base plus the processing memory. -/
def full_total_mb (w h scale : Nat) : ℚ := 800 + full_processing_mb w h scale

/-- The dictionary returned by upscaler.get_memory_usage_estimate. -/
structure MemoryEstimateFull where
  base_memory_mb : ℚ
  processing_memory_mb : ℚ
  total_estimated_mb : ℚ
  recommended_tile_size : Nat
deriving DecidableEq

/-- Embeds upscaler.get_memory_usage_estimate (lines 167-186): base 800,
processing and total rounded to one decimal in the returned dictionary,
and a recommended tile size of 512 when the unrounded total exceeds 2000
and 0 otherwise. -/
def get_memory_usage_estimate_full (w h scale : Nat) : MemoryEstimateFull :=
  ⟨800,
   round_py1 (full_processing_mb w h scale),
   round_py1 (full_total_mb w h scale),
   (if 2000 < full_total_mb w h scale then 512 else 0)⟩

/-! Helper lemmas shared by the claim theorems. -/

/-- Floor and truncation of a cast natural number give it back. -/
lemma floor_cast_toNat (a : Nat) : (⌊((a : ℚ))⌋).toNat = a := by
  rw [Int.floor_natCast, Int.toNat_natCast]

/-- Value of round_py1 when the scaled argument lies in the lower half of
an integer step. -/
lemma round_py1_low (x : ℚ) (n : ℤ) (h1 : (n : ℚ) ≤ x * 10)
    (h2 : x * 10 < (n : ℚ) + 1 / 2) : round_py1 x = (n : ℚ) / 10 := by
  have hf : ⌊x * 10⌋ = n := Int.floor_eq_iff.mpr ⟨h1, by linarith⟩
  unfold round_py1 round_half_even
  rw [hf]
  rw [if_pos (by linarith)]

/-- Value of round_py1 when the scaled argument lies in the upper half of
an integer step. -/
lemma round_py1_high (x : ℚ) (n : ℤ) (h1 : (n : ℚ) + 1 / 2 < x * 10)
    (h2 : x * 10 < (n : ℚ) + 1) : round_py1 x = ((n : ℚ) + 1) / 10 := by
  have hf : ⌊x * 10⌋ = n := Int.floor_eq_iff.mpr ⟨by linarith, h2⟩
  unfold round_py1 round_half_even
  rw [hf]
  rw [if_neg (by linarith), if_pos (by linarith)]
  push_cast
  ring_nf

/-- Doubling a natural dimension through the rational resize formula is
exact. -/
lemma floor_double (n : Nat) : (⌊(n : ℚ) * 2⌋).toNat = 2 * n := by
  rw [show ((n : ℚ) * 2) = ((2 * n : ℕ) : ℚ) by push_cast; ring,
    Int.floor_natCast, Int.toNat_natCast]

/-- Unfolding of one guarded iteration of the software-resize loop. -/
lemma pil_enter_f (scale fuel fuel2 : Nat) (hf : fuel = fuel2 + 1)
    (st : PilState) (h : st.cs < (scale : ℚ)) :
    pil_loop scale fuel st = pil_loop scale fuel2 (pil_step scale st) := by
  subst hf
  simp only [pil_loop]
  rw [if_pos h]

/-- The software-resize loop stops as soon as the accumulated scale has
reached the requested scale. -/
lemma pil_stop_f (scale fuel fuel2 : Nat) (hf : fuel = fuel2 + 1)
    (st : PilState) (h : ¬ st.cs < (scale : ℚ)) :
    pil_loop scale fuel st = st := by
  subst hf
  simp only [pil_loop]
  rw [if_neg h]

/-- When the capped step evaluates to exactly 2, one pass of the
software-resize loop doubles both dimensions exactly. -/
lemma pil_step_double (scale w h : Nat) (cs cs2 : ℚ)
    (hmin : min 2 ((scale : ℚ) / cs) = 2) (hcs : cs * 2 = cs2) :
    pil_step scale ⟨w, h, cs⟩ = ⟨2 * w, 2 * h, cs2⟩ := by
  unfold pil_step
  simp only [hmin]
  rw [PilState.mk.injEq]
  exact ⟨floor_double w, floor_double h, hcs⟩

/-- For requested scale 2 the loop performs one doubling pass and exits
with the exact target dimensions. -/
lemma pil_loop_exact_two (w h : Nat) :
    pil_loop 2 (2 + 1) ⟨w, h, 1⟩ = ⟨w * 2, h * 2, ((2 : Nat) : ℚ)⟩ := by
  rw [pil_enter_f 2 (2 + 1) 2 rfl _ (show (1 : ℚ) < ((2 : Nat) : ℚ) by norm_num),
    pil_step_double 2 w h 1 ((2 : Nat) : ℚ) (by norm_num) (by norm_num),
    pil_stop_f 2 2 1 rfl _ (show ¬ ((2 : Nat) : ℚ) < ((2 : Nat) : ℚ) by norm_num)]
  rw [PilState.mk.injEq]
  exact ⟨by ring, by ring, rfl⟩

/-- For requested scale 4 the loop performs two doubling passes and exits
with the exact target dimensions. -/
lemma pil_loop_exact_four (w h : Nat) :
    pil_loop 4 (4 + 1) ⟨w, h, 1⟩ = ⟨w * 4, h * 4, ((4 : Nat) : ℚ)⟩ := by
  rw [pil_enter_f 4 (4 + 1) 4 rfl _ (show (1 : ℚ) < ((4 : Nat) : ℚ) by norm_num),
    pil_step_double 4 w h 1 2 (by norm_num) (by norm_num),
    pil_enter_f 4 4 3 rfl _ (show (2 : ℚ) < ((4 : Nat) : ℚ) by norm_num),
    pil_step_double 4 (2 * w) (2 * h) 2 ((4 : Nat) : ℚ) (by norm_num) (by norm_num),
    pil_stop_f 4 3 2 rfl _ (show ¬ ((4 : Nat) : ℚ) < ((4 : Nat) : ℚ) by norm_num)]
  rw [PilState.mk.injEq]
  exact ⟨by ring, by ring, rfl⟩

/-- For requested scale 8 the loop performs three doubling passes and
exits with the exact target dimensions. -/
lemma pil_loop_exact_eight (w h : Nat) :
    pil_loop 8 (8 + 1) ⟨w, h, 1⟩ = ⟨w * 8, h * 8, ((8 : Nat) : ℚ)⟩ := by
  rw [pil_enter_f 8 (8 + 1) 8 rfl _ (show (1 : ℚ) < ((8 : Nat) : ℚ) by norm_num),
    pil_step_double 8 w h 1 2 (by norm_num) (by norm_num),
    pil_enter_f 8 8 7 rfl _ (show (2 : ℚ) < ((8 : Nat) : ℚ) by norm_num),
    pil_step_double 8 (2 * w) (2 * h) 2 4 (by norm_num) (by norm_num),
    pil_enter_f 8 7 6 rfl _ (show (4 : ℚ) < ((8 : Nat) : ℚ) by norm_num),
    pil_step_double 8 (2 * (2 * w)) (2 * (2 * h)) 4 ((8 : Nat) : ℚ) (by norm_num) (by norm_num),
    pil_stop_f 8 6 5 rfl _ (show ¬ ((8 : Nat) : ℚ) < ((8 : Nat) : ℚ) by norm_num)]
  rw [PilState.mk.injEq]
  exact ⟨by ring, by ring, rfl⟩

/-- The corrective final resize of the software-resize strategy makes the
output dimensions exactly the target for every input whatsoever. -/
lemma upscale_pil_dims_eq (w h s : Nat) :
    upscale_pil_dims w h s = (w * s, h * s) := by
  unfold upscale_pil_dims
  split
  · rfl
  · next hcond => exact not_not.mp hcond

/-! Claim theorems. -/

/-- C1: for a 100 by 100 input with requested scale 2 against a backend of
native scale 4, the computed plan post-resizes with factor one half, and
every backend strategy (the accelerator-process path of upscaler.upscale,
the in-process inference path shared by upscaler_hybrid._upscale_python
and upscaler_simple._upscale_realesrgan, and the software-resize path)
produces a final output of exactly 200 by 200 pixels. -/
theorem claim_c1 :
    (scale_plan 2).resize_after = true ∧
    plan_resize_factor (scale_plan 2) = 1 / 2 ∧
    upscale_ncnn_dims 100 100 2 = (200, 200) ∧
    python_inference_dims 100 100 2 = (200, 200) ∧
    upscale_pil_dims 100 100 2 = (200, 200) := by
  refine ⟨rfl, ?_, ?_, ?_, ?_⟩
  · norm_num [plan_resize_factor, scale_plan]
  · norm_num [scale_plan, upscale_ncnn_dims, ncnn_binary_dims,
      plan_resize_factor, resize_image_dims]
    decide
  · norm_num [python_inference_dims, enhance_dims]
  · exact upscale_pil_dims_eq 100 100 2

/-- C2: with the accelerator-process backend active, the dispatcher of
upscaler_simple always reaches the stub _upscale_ncnn and therefore
returns False for every input path, output path, scale, model hint and
tile size. -/
theorem claim_c2 (input_path output_path : String) (scale : Nat)
    (model : Option String) (tile_size : Nat) :
    (upscale_simple Backend.ncnn input_path output_path scale model
        tile_size).2 = Except.ok false := rfl

/-- C3: backend selection is a pure function of the registry applying the
fixed priority realesrgan, then ncnn, then pil, then the sentinel none. -/
theorem claim_c3 (r : Registry) :
    (r.realesrgan_available = true → select_backend r = Backend.realesrgan) ∧
    (r.realesrgan_available = false → r.ncnn_available = true →
      select_backend r = Backend.ncnn) ∧
    (r.realesrgan_available = false → r.ncnn_available = false →
      r.pil_available = true → select_backend r = Backend.pil) ∧
    (r.realesrgan_available = false → r.ncnn_available = false →
      r.pil_available = false → select_backend r = Backend.none) :=
  ⟨fun h1 => by simp [select_backend, h1],
   fun h1 h2 => by simp [select_backend, h1, h2],
   fun h1 h2 h3 => by simp [select_backend, h1, h2, h3],
   fun h1 h2 h3 => by simp [select_backend, h1, h2, h3]⟩

/-- Witness for C3 at the four concrete registries of the spec
scenario. -/
theorem claim_c3_witness :
    select_backend ⟨true, true, true, true⟩ = Backend.realesrgan ∧
    select_backend ⟨false, true, true, true⟩ = Backend.ncnn ∧
    select_backend ⟨false, false, true, false⟩ = Backend.pil ∧
    select_backend ⟨false, false, false, false⟩ = Backend.none :=
  ⟨(claim_c3 ⟨true, true, true, true⟩).1 rfl,
   (claim_c3 ⟨false, true, true, true⟩).2.1 rfl rfl,
   (claim_c3 ⟨false, false, true, false⟩).2.2.1 rfl rfl rfl,
   (claim_c3 ⟨false, false, false, false⟩).2.2.2 rfl rfl rfl⟩

/-- C4: with the sentinel backend none active, every upscale request of
upscaler_simple raises the no-backend error with an empty effect trace:
no file is read or written and no execution strategy is entered. -/
theorem claim_c4 (input_path output_path : String) (scale : Nat)
    (model : Option String) (tile_size : Nat) :
    upscale_simple Backend.none input_path output_path scale model
        tile_size =
      ([], Except.error "No upscaling backend available") := rfl

/-- C5: in the accelerator-process strategy of upscaler.upscale, a child
process that exits with code 0 while the path declared with its -o flag
does not exist afterwards never yields success, for every requested scale
and every captured error stream. -/
theorem claim_c5 (scale : Nat) (stderr_msg : Option String) :
    upscale_ncnn_run scale 0 stderr_msg false ≠ Except.ok true := by
  unfold upscale_ncnn_run
  rw [if_neg (by norm_num)]
  split
  · rw [if_neg (by simp)]
    simp
  · simp

/-- C6: the software-resize strategy yields output dimensions exactly
(w * scale, h * scale) for every scale in {2, 4, 8} and every input with
positive dimensions; moreover the multi-pass loop itself already reaches
the exact target before the corrective final resize. -/
theorem claim_c6 (w h s : Nat) (hw : 1 ≤ w) (hh : 1 ≤ h)
    (hs : s = 2 ∨ s = 4 ∨ s = 8) :
    upscale_pil_dims w h s = (w * s, h * s) ∧
    pil_loop s (s + 1) ⟨w, h, 1⟩ = ⟨w * s, h * s, (s : ℚ)⟩ := by
  refine ⟨upscale_pil_dims_eq w h s, ?_⟩
  rcases hs with rfl | rfl | rfl
  · exact pil_loop_exact_two w h
  · exact pil_loop_exact_four w h
  · exact pil_loop_exact_eight w h

/-- Witness for C6 at the concrete input 3 by 5 with scale 8. -/
theorem claim_c6_witness :
    1 ≤ 3 ∧ 1 ≤ 5 ∧ ((8 : Nat) = 2 ∨ (8 : Nat) = 4 ∨ (8 : Nat) = 8) ∧
    (upscale_pil_dims 3 5 8 = (3 * 8, 5 * 8) ∧
      pil_loop 8 (8 + 1) ⟨3, 5, 1⟩ = ⟨3 * 8, 5 * 8, ((8 : Nat) : ℚ)⟩) :=
  ⟨by norm_num, by norm_num, by norm_num,
   claim_c6 3 5 8 (by norm_num) (by norm_num) (by norm_num)⟩

/-- Counterexample to C7: in the estimator of upscaler_simple, the one
consumed by the serving layer, the recommended tile size is 512 for a one
pixel image at scale 2 on the pil backend even though its total memory
estimate is far below the 2000 MB ceiling of the codebase, and it is the
same 512 for a huge image whose total exceeds that ceiling: the tile size
is not a step function of the total that is 0 below the ceiling. -/
theorem claim_c7_counterexample :
    (get_memory_usage_estimate_simple Backend.pil 1 1 2).recommended_tile_size
      = 512 ∧
    (get_memory_usage_estimate_simple Backend.pil 1 1 2).total_estimated_mb
      < 2000 ∧
    (get_memory_usage_estimate_simple Backend.pil 8000 8000 8).recommended_tile_size
      = 512 ∧
    2000 <
      (get_memory_usage_estimate_simple Backend.pil 8000 8000 8).total_estimated_mb := by
  refine ⟨rfl, ?_, rfl, ?_⟩
  · simp only [get_memory_usage_estimate_simple, simple_base_memory_mb,
      simple_memory_per_pixel]
    rw [round_py1_low _ 1000 (by push_cast; norm_num) (by push_cast; norm_num)]
    norm_num
  · simp only [get_memory_usage_estimate_simple, simple_base_memory_mb,
      simple_memory_per_pixel]
    rw [round_py1_low _ 164840 (by push_cast; norm_num) (by push_cast; norm_num)]
    norm_num

/-- C7 amended: only the estimator of upscaler.py implements the step
function, returning tile size 512 exactly when the unrounded total
exceeds the fixed 2000 MB ceiling and 0 otherwise; the estimator of
upscaler_simple returns a backend-determined constant (400 for the
inference backend, 512 otherwise) that does not depend on the estimated
total and is never 0. -/
theorem claim_c7 :
    (∀ w h s : Nat,
      ((get_memory_usage_estimate_full w h s).recommended_tile_size ≠ 0 ↔
        2000 < full_total_mb w h s) ∧
      ((get_memory_usage_estimate_full w h s).recommended_tile_size = 0 ∨
        (get_memory_usage_estimate_full w h s).recommended_tile_size = 512)) ∧
    (∀ (b : Backend) (w h s w2 h2 s2 : Nat),
      (get_memory_usage_estimate_simple b w h s).recommended_tile_size =
        (get_memory_usage_estimate_simple b w2 h2 s2).recommended_tile_size ∧
      (get_memory_usage_estimate_simple b w h s).recommended_tile_size ≠ 0) := by
  constructor
  · intro w h s
    constructor
    · simp only [get_memory_usage_estimate_full]
      split
      · next hlt => simp [hlt]
      · next hge => simp [hge]
    · simp only [get_memory_usage_estimate_full]
      split
      · simp
      · simp
  · intro b w h s w2 h2 s2
    cases b <;> simp [get_memory_usage_estimate_simple]

/-- Counterexample to C8: in upscaler_hybrid, a first job whose hint
selects the general-purpose variant populates the cache, and a second job
whose hint contains "anime" still receives the cached general-purpose
variant instead of the variant its own hint selects. -/
theorem claim_c8_counterexample :
    (hybrid_upscale_python_model
        (hybrid_upscale_python_model Option.none "realesrgan-x4plus").new_cache
        "realesrgan-x4plus-anime").variant_used = Variant.x4plus ∧
    select_variant "realesrgan-x4plus-anime" = Variant.anime6B ∧
    (hybrid_upscale_python_model
        (hybrid_upscale_python_model Option.none "realesrgan-x4plus").new_cache
        "realesrgan-x4plus-anime").variant_used ≠
      select_variant "realesrgan-x4plus-anime" := by decide

/-- C8 amended: in upscaler_hybrid the model is loaded lazily on first
use, selecting the variant by a case-insensitive substring match on the
first job hint, but the cache is not keyed by variant: every later job
reuses the first-loaded variant regardless of its own hint.  In
upscaler_simple there is no cache at all: every job constructs the model
anew with the variant selected from its own hint. -/
theorem claim_c8 :
    (∀ model : String,
      hybrid_upscale_python_model Option.none model =
        ⟨some (select_variant model), select_variant model⟩) ∧
    (∀ (v : Variant) (model : String),
      hybrid_upscale_python_model (some v) model = ⟨some v, v⟩) ∧
    (∀ (input_path output_path : String) (scale : Nat)
        (model : Option String) (tile_size : Nat),
      (upscale_simple Backend.realesrgan input_path output_path scale model
          tile_size).1 =
        [Effect.strategy_call Backend.realesrgan,
         Effect.model_load (select_variant (py_str model)),
         Effect.file_read input_path, Effect.file_write output_path]) ∧
    select_variant "Anime-Video" = Variant.anime6B ∧
    select_variant "ANIME" = Variant.anime6B ∧
    select_variant "realesrgan-x4plus" = Variant.x4plus ∧
    select_variant "None" = Variant.x4plus :=
  ⟨fun _ => rfl, fun _ _ => rfl, fun _ _ _ _ _ => rfl,
   by decide, by decide, by decide, by decide⟩

/-- Counterexample to C9: the value upscaler_simple returns as
processing memory is rounded to one decimal, so for a one pixel image at
scale 2 on the pil backend it is 0 rather than the exact formula value
width times height times the per-pixel coefficient times the square of
the scale. -/
theorem claim_c9_counterexample :
    (get_memory_usage_estimate_simple Backend.pil 1 1 2).processing_memory_mb
      = 0 ∧
    ((1 * 1 : Nat) : ℚ) * simple_memory_per_pixel Backend.pil *
      ((2 : Nat) : ℚ) ^ 2 ≠ 0 ∧
    (get_memory_usage_estimate_simple Backend.pil 1 1 2).processing_memory_mb ≠
      ((1 * 1 : Nat) : ℚ) * simple_memory_per_pixel Backend.pil *
        ((2 : Nat) : ℚ) ^ 2 := by
  have h0 :
      (get_memory_usage_estimate_simple Backend.pil 1 1 2).processing_memory_mb
        = 0 := by
    simp only [get_memory_usage_estimate_simple, simple_memory_per_pixel]
    rw [round_py1_low _ 0 (by push_cast; norm_num) (by push_cast; norm_num)]
    norm_num
  refine ⟨h0, by push_cast [simple_memory_per_pixel]; norm_num, ?_⟩
  rw [h0]
  push_cast [simple_memory_per_pixel]
  norm_num

/-- C9 amended: both estimators return the base coefficient of the active
backend unrounded, and the processing and total fields equal to the spec
formulas (pixels times the per-pixel coefficient times the squared scale,
and base plus processing) rounded to one decimal digit; the estimate is a
pure function of backend and geometry. -/
theorem claim_c9 (b : Backend) (w h s : Nat) :
    (get_memory_usage_estimate_simple b w h s).base_memory_mb =
      simple_base_memory_mb b ∧
    (get_memory_usage_estimate_simple b w h s).processing_memory_mb =
      round_py1 (((w * h : Nat) : ℚ) * simple_memory_per_pixel b *
        (s : ℚ) ^ 2) ∧
    (get_memory_usage_estimate_simple b w h s).total_estimated_mb =
      round_py1 (simple_base_memory_mb b +
        ((w * h : Nat) : ℚ) * simple_memory_per_pixel b * (s : ℚ) ^ 2) ∧
    (get_memory_usage_estimate_full w h s).base_memory_mb = 800 ∧
    (get_memory_usage_estimate_full w h s).processing_memory_mb =
      round_py1 (((w * h : Nat) : ℚ) * (8 / 1000000) * (s : ℚ) ^ 2) ∧
    (get_memory_usage_estimate_full w h s).total_estimated_mb =
      round_py1 (800 + ((w * h : Nat) : ℚ) * (8 / 1000000) * (s : ℚ) ^ 2) := by
  refine ⟨rfl, ?_, ?_, rfl, ?_, ?_⟩ <;>
    · simp only [get_memory_usage_estimate_simple,
        get_memory_usage_estimate_full, full_processing_mb, full_total_mb]
      exact congrArg round_py1 (by ring)

/-- C10: the memory estimate of a 512 by 512 image at scale 4 with the
software-resize coefficients has a strictly smaller total than the same
estimate with the inference coefficients. -/
theorem claim_c10 :
    (get_memory_usage_estimate_simple Backend.pil 512 512 4).total_estimated_mb
      <
    (get_memory_usage_estimate_simple Backend.realesrgan 512 512 4).total_estimated_mb := by
  have hp :
      (get_memory_usage_estimate_simple Backend.pil 512 512 4).total_estimated_mb
        = ((1167 : ℤ) + 1 : ℚ) / 10 := by
    simp only [get_memory_usage_estimate_simple, simple_base_memory_mb,
      simple_memory_per_pixel]
    rw [round_py1_high _ 1167 (by push_cast; norm_num) (by push_cast; norm_num)]
  have hr :
      (get_memory_usage_estimate_simple Backend.realesrgan 512 512 4).total_estimated_mb
        = ((12503 : ℤ) : ℚ) / 10 := by
    simp only [get_memory_usage_estimate_simple, simple_base_memory_mb,
      simple_memory_per_pixel]
    rw [round_py1_low _ 12503 (by push_cast; norm_num) (by push_cast; norm_num)]
  rw [hp, hr]
  norm_num

end UpscalerOrchestrator
